import Mathlib

/-
  Verification of the data-generation pipeline of shopware-data-generator
  (src/src/data-generator.ts), shallowly embedded in Lean 4.

  External effects (the generative-model provider, the HTTP/browser fetchers
  and the HTML text extractor) are abstracted as oracle environments; the
  image-cache filesystem is an explicit association list of file contents.
  Everything else is translated directly from the TypeScript source.
-/

set_option autoImplicit false

namespace ShopwareDataGen

/-! ## Text enrichment (data-generator.ts lines 215-291) -/

/-- The character class of the JS regex metacharacter backslash-s, restricted
to the ASCII whitespace characters (the inputs considered here are ASCII). -/
def isJsWhitespace (c : Char) : Bool :=
  c = ' ' || c = '\t' || c = '\n' || c = '\r' || c = '\x0b' || c = '\x0c'

/-- Case-insensitive match of a literal pattern against the start of a
character list (the JS regex runs with the i flag). -/
def matchesCI : List Char → List Char → Bool
  | [], _ => true
  | _ :: _, [] => false
  | p :: ps, c :: cs => (c.toLower = p.toLower) && matchesCI ps cs

/-- One attempt of the regex https?://[^whitespace]+ anchored at the start of
the character list: a scheme, then a greedy non-empty run of non-whitespace. -/
def urlMatchAt (cs : List Char) : Option (List Char) :=
  let schemeLen : Option Nat :=
    if matchesCI "https://".toList cs then some 8
    else if matchesCI "http://".toList cs then some 7
    else none
  match schemeLen with
  | none => none
  | some n =>
    let body := (cs.drop n).takeWhile (fun c => !isJsWhitespace c)
    if body.isEmpty then none else some (cs.take n ++ body)

/-- Leftmost match: the JS regex engine tries each start position in order. -/
def findUrl : List Char → Option (List Char)
  | [] => none
  | c :: cs =>
    match urlMatchAt (c :: cs) with
    | some m => some m
    | none => findUrl cs

/-- extractFirstUrl (lines 215-219): first substring matching
https?://[^whitespace]+, or none. An empty string short-circuits to none in
the source (the falsy check), which coincides with the scan on no characters. -/
def extractFirstUrl (text : String) : Option String :=
  (findUrl text.toList).map fun cs => String.mk cs

/-- clipText (lines 265-268): texts within the budget (and the falsy empty
string) pass through; longer ones are cut and a truncation marker appended. -/
def clipText (input : String) (maxChars : Nat) : String :=
  if input.length ≤ maxChars then input
  else String.mk (input.toList.take maxChars) ++ "\n...[truncated]"

/-- Oracle for the external effects of enrichment. A none result stands for a
thrown error: of the browser-rendered fetch (fetchRenderedHtml), of the plain
HTTP fetch (fetchHtml), or of the HTML-to-text extraction
(extractReadableTextFromHtml, whose body is cheerio library calls). -/
structure EnrichEnv where
  renderedHtml : String → Option String
  plainHtml : String → Option String
  extractText : String → Option String

/-- Lines 277-282: the rendered fetch is attempted first and its failure falls
back to the plain fetch; none means both threw. -/
def fetchedHtml (env : EnrichEnv) (url : String) : Option String :=
  match env.renderedHtml url with
  | some h => some h
  | none => env.plainHtml url

/-- enrichAdditionalInformation (lines 270-291): no URL found returns the
input; any error of fetch or extraction is caught by the handler on line 287
and the original input returned; on success the crawled-content section is
appended to the input. -/
def enrichAdditionalInformation (env : EnrichEnv) (additionalInformation : String) : String :=
  match extractFirstUrl additionalInformation with
  | none => additionalInformation
  | some url =>
    match fetchedHtml env url with
    | none => additionalInformation
    | some html =>
      match env.extractText html with
      | none => additionalInformation
      | some text =>
        additionalInformation ++ "\n\nCrawled source URL: " ++ url
          ++ "\nRelevant extracted content (summarize and prioritize as needed):\n"
          ++ clipText text 3000

/-! ## JSON values and the property-group generator (lines 35-62) -/

/-- A JSON value, the shape of what the runtime JSON.parse yields. -/
inductive Json where
  | null
  | str (s : String)
  | num (n : Int)
  | bool (b : Bool)
  | arr (xs : List Json)
  | obj (fields : List (String × Json))

/-- JS property access on a parsed document: a field of an object, undefined
(none) on a missing field or a non-object. -/
def Json.getField : Json → String → Option Json
  | .obj fs, k => fs.lookup k
  | _, _ => none

/-- generatePropertyGroups (lines 35-62), as a function of the model reply.
parseJson stands for the runtime JSON.parse, none for a thrown SyntaxError;
content is the reply payload, where none abstracts an absent (null) content
and the empty string is the other falsy case the source checks for. A none
result is the implicit undefined return of the TypeScript function: when the
parse throws, the catch on line 59 only logs and the function falls through
past the try block with no return statement. -/
def generatePropertyGroups (parseJson : String → Option Json) (content : Option String) :
    Option Json :=
  match content with
  | none => some (Json.arr [])
  | some s =>
    if s = "" then some (Json.arr [])
    else
      match parseJson s with
      | some j => j.getField "propertyGroups"
      | none => none

/-! ## The product data model (entities schema and parsed model replies) -/

/-- ImageAttachment: the record attached as the image field by the image
generator (lines 350-354 and 401-405). -/
structure ImageAttachment where
  name : String
  type : String
  data : String
  deriving DecidableEq, Repr

/-- A parsed product record. The generation claims only inspect the name, the
description and the image attachment; every remaining JSON field of the
record is carried opaquely in rest so that "unchanged" statements cover the
whole record. -/
structure Product where
  name : String
  description : String
  image : Option ImageAttachment
  rest : List (String × String)
  deriving DecidableEq, Repr

/-- A product brief, per the zod schema of generateProductBriefs
(lines 298-303): nameIdea, targetAudience, an optional priceTier and
3 to 6 differentiators. -/
structure ProductBrief where
  nameIdea : String
  targetAudience : String
  priceTier : Option String
  differentiators : List String
  deriving DecidableEq, Repr

/-! ## The orchestrator generateProducts (lines 64-135)

The per-call constant arguments (category, property groups, flags, the
enriched context) are shared by every product-generation call the
orchestrator issues; a call is therefore recorded by its two varying
diversification arguments, the prior-names list and the brief
(generateProduct parameters previousProductNames and brief). The model call
inside generateProduct absorbs its own parse failures (lines 206-213) and
yields a product or absent; the provider call on line 200, however, sits
outside that try and can throw, and the brief-generation call can throw too,
which the orchestrator catches on line 102. GenEnv below is the restriction
to executions in which no product call throws, which suffices for the
per-issued-call properties; the throw-aware model GenEnvE and
generateProductsE further down expresses the abort-and-propagate path of the
sequential loop. The optional image fan-out stage (lines 126-134) maps the
separately modelled generateProductImage over the returned list and is not
part of this function. -/

/-- The two diversification arguments of one generateProduct call. -/
structure GenCall where
  priorNames : List String
  brief : Option ProductBrief
  deriving DecidableEq, Repr

/-- Oracle for the model calls the orchestrator triggers: the outcome of the
brief-generation call (none = it threw; caught at line 102), and the product
returned (or absent) by the generateProduct call for the i-th brief of the
fast path and for the i-th attempt of the sequential fallback. The
Option-valued product oracles describe executions whose product calls do not
throw; the throw path is modelled by GenEnvE below. -/
structure GenEnv where
  briefs : Option (List ProductBrief)
  fastResult : Nat → Option Product
  seqResult : Nat → Option Product

/-- Line 110: products.map(p to p.name).filter(Boolean) — the names of the
accepted products with the falsy empty string removed. -/
def truthyNames (products : List Product) : List String :=
  (products.map Product.name).filter fun n => n != ""

/-- The sequential fallback loop (lines 109-123): attempt indices start,
start+1, ... for the given number of remaining iterations, threading the
mutable products array as an accumulator; returns the final products array
and the trace of issued calls. Each call carries the truthy names of the
products accepted so far and no brief (the brief parameter defaults to null
on line 144). -/
def fallbackLoop (env : GenEnv) : Nat → Nat → List Product → List Product × List GenCall
  | _, 0, products => (products, [])
  | start, remaining + 1, products =>
    let call : GenCall := ⟨truthyNames products, none⟩
    let products' :=
      match env.seqResult start with
      | some p => products ++ [p]
      | none => products
    let next := fallbackLoop env (start + 1) remaining products'
    (next.1, call :: next.2)

/-- The products accepted by the sequential attempts start, ..., start+n-1:
exactly those attempts whose call returned a product, in attempt order. -/
def seqAcceptedFrom (env : GenEnv) : Nat → Nat → List Product
  | _, 0 => []
  | start, n + 1 =>
    match env.seqResult start with
    | some p => p :: seqAcceptedFrom env (start + 1) n
    | none => seqAcceptedFrom env (start + 1) n

/-- generateProducts (lines 64-135), returning the products array of the
selected path together with the trace of generateProduct calls issued. Fast
path (lines 80-104): when the brief call does not throw and yields a
non-empty array, one parallel call per brief, each with an empty prior-names
list and its own brief; Promise.all keeps an absent (undefined) result as an
entry of the products array. Fallback (lines 106-124): triggered by the line
107 emptiness check, productCount sequential calls accumulating only
successes; its products are all present. -/
def generateProducts (env : GenEnv) (productCount : Nat) :
    List (Option Product) × List GenCall :=
  let fastOutcome : Option (List (Option Product) × List GenCall) :=
    match env.briefs with
    | none => none
    | some bs =>
      if bs.length > 0 then
        some ((List.range bs.length).map env.fastResult, bs.map fun b => ⟨[], some b⟩)
      else none
  match fastOutcome with
  | some (ps, cs) =>
    if ps.length = 0 then
      let fb := fallbackLoop env 0 productCount []
      (fb.1.map some, cs ++ fb.2)
    else (ps, cs)
  | none =>
    let fb := fallbackLoop env 0 productCount []
    (fb.1.map some, fb.2)

/-! ## The throw-aware orchestrator model

The provider call of generateProduct (line 200) precedes the try block that
starts on line 206, so besides returning a product or absent the call can
throw. On the fast path such a rejection is caught by the handler on line
102; in the sequential fallback loop (lines 109-123) there is no handler, so
a thrown attempt aborts the loop and the error propagates out of
generateProducts. The following model makes that path expressible. -/

/-- The outcome of one generateProduct invocation: a thrown provider call
(line 200, outside the try of line 206), an absent result (parse failure
absorbed on lines 206-213), or a parsed product. -/
inductive POutcome where
  | throws
  | absent
  | ok (p : Product)
  deriving DecidableEq, Repr

/-- Throw-aware oracle for the orchestrator's model calls: the brief-call
outcome as in GenEnv, and the full outcome of the generateProduct call for
the i-th brief of the fast path and for the i-th sequential attempt. -/
structure GenEnvE where
  briefs : Option (List ProductBrief)
  fastOutcome : Nat → POutcome
  seqOutcome : Nat → POutcome

/-- The joined Promise.all of the fast path (line 88): none when some call
threw, so the rejection is caught on line 102 and the products array keeps
its initial empty value; otherwise the per-brief results, an absent result
kept as an undefined entry. -/
def fastProducts (env : GenEnvE) (n : Nat) : Option (List (Option Product)) :=
  if (List.range n).any (fun i =>
      match env.fastOutcome i with
      | POutcome.throws => true
      | _ => false) then none
  else
    some ((List.range n).map fun i =>
      match env.fastOutcome i with
      | POutcome.ok p => some p
      | _ => none)

/-- The sequential fallback loop (lines 109-123) with the throw path: a
thrown attempt still issues its call, then aborts the loop and propagates
the error; a completed attempt extends the accumulator exactly when it
returned a product. -/
def fallbackLoopE (env : GenEnvE) :
    Nat → Nat → List Product → Except Unit (List Product) × List GenCall
  | _, 0, products => (Except.ok products, [])
  | start, remaining + 1, products =>
    let call : GenCall := ⟨truthyNames products, none⟩
    match env.seqOutcome start with
    | POutcome.throws => (Except.error (), [call])
    | POutcome.ok p =>
      let next := fallbackLoopE env (start + 1) remaining (products ++ [p])
      (next.1, call :: next.2)
    | POutcome.absent =>
      let next := fallbackLoopE env (start + 1) remaining products
      (next.1, call :: next.2)

/-- The products accepted by the throw-aware sequential attempts start, ...,
start+n-1, in attempt order. -/
def seqAcceptedFromE (env : GenEnvE) : Nat → Nat → List Product
  | _, 0 => []
  | start, n + 1 =>
    match env.seqOutcome start with
    | POutcome.ok p => p :: seqAcceptedFromE env (start + 1) n
    | _ => seqAcceptedFromE env (start + 1) n

/-- generateProducts (lines 64-135) over the throw-aware oracle. Structure as
in generateProducts above: the fast path runs on a non-empty brief array and
its call trace is one call per brief; a rejected Promise.all (some fast call
threw) is caught and leaves the products array empty, triggering the
fallback; the fallback's thrown attempt propagates as an error result. -/
def generateProductsE (env : GenEnvE) (productCount : Nat) :
    Except Unit (List (Option Product)) × List GenCall :=
  match env.briefs with
  | none =>
    let fb := fallbackLoopE env 0 productCount []
    (fb.1.map (List.map some), fb.2)
  | some bs =>
    if bs.length > 0 then
      let fastCalls := bs.map fun b => (⟨[], some b⟩ : GenCall)
      match fastProducts env bs.length with
      | none =>
        let fb := fallbackLoopE env 0 productCount []
        (fb.1.map (List.map some), fastCalls ++ fb.2)
      | some ps =>
        if ps.length = 0 then
          let fb := fallbackLoopE env 0 productCount []
          (fb.1.map (List.map some), fastCalls ++ fb.2)
        else (Except.ok ps, fastCalls)
    else
      let fb := fallbackLoopE env 0 productCount []
      (fb.1.map (List.map some), fb.2)

/-! ## The product image generator (lines 341-422) -/

/-- Oracle for the image-provider call: the b64_json payload of the reply, or
none when the call threw (caught and logged at line 383) or the reply carried
no payload (the line 380 guard leaves imageBase64 empty either way). The
prompt built on lines 361-368 only parametrizes this external call and is
abstracted into the oracle's reply. -/
structure ImgEnv where
  providerImage : Option String

/-- The observable state of one image generation: the image-cache directory
tree as an association list from file path to the stored bytes (kept in their
base64 form, as read back by readFileSync with the base64 encoding and
written by writeFileSync from a base64 string), plus a count of provider
calls issued. -/
structure ImgState where
  files : List (String × String)
  providerCalls : Nat
  deriving DecidableEq, Repr

/-- The sanitization of line 344 and line 411: every character that is not an
ASCII letter is removed. -/
def sanitizeName (s : String) : String :=
  String.mk (s.toList.filter Char.isAlpha)

/-- The cache path of a product image (lines 342-345, 410-421): a per-category
subdirectory of the image directory, category and product name sanitized. -/
def imageFsPath (imageDir category name : String) : String :=
  imageDir ++ "/" ++ sanitizeName category ++ "/" ++ sanitizeName name ++ ".png"

/-- generateProductImage (lines 341-408). Cache hit: the cached bytes are
attached as the image with no provider call. Cache miss: one provider call;
a thrown or empty reply returns the product unmodified (lines 383-389); a
non-empty reply is written to the cache path unless a file appeared there
(the line 391 re-check, trivially absent in this sequential model) and
attached to the product. -/
def generateProductImage (imageDir : String) (env : ImgEnv) (st : ImgState)
    (product : Product) (category : String) : Product × ImgState :=
  let imageName := sanitizeName product.name
  let fsPath := imageFsPath imageDir category product.name
  match st.files.lookup fsPath with
  | some imageBase64 =>
    ({ product with image := some ⟨imageName, ".png", imageBase64⟩ }, st)
  | none =>
    let st1 : ImgState := ⟨st.files, st.providerCalls + 1⟩
    let imageBase64 := (env.providerImage).getD ""
    if imageBase64 = "" then (product, st1)
    else
      let files' :=
        if (st1.files.lookup fsPath).isSome then st1.files
        else st1.files ++ [(fsPath, imageBase64)]
      ({ product with image := some ⟨imageName, ".png", imageBase64⟩ },
        ⟨files', st1.providerCalls⟩)

/-! ## Concrete fixtures used by witnesses and counterexamples -/

/-- An enrichment oracle on which every fetch and every extraction throws. -/
def envNoFetch : EnrichEnv := ⟨fun _ => none, fun _ => none, fun _ => none⟩

/-- A sample brief. -/
def briefA : ProductBrief :=
  ⟨"Aurora Lamp", "students", some "mid", ["warm light", "timer switch", "usb power"]⟩

/-- A sample accepted product. -/
def prodAlpha : Product := ⟨"Alpha", "first accepted product", none, []⟩

/-- An accepted product whose name is the empty string (the zod schema of the
request allows any string, and the reply is parsed without validation). -/
def prodNoName : Product := ⟨"", "accepted product with an empty name", none, []⟩

/-- Orchestrator oracle: one brief returned, every product call absent. -/
def envFastAbsent : GenEnv := ⟨some [briefA], fun _ => none, fun _ => none⟩

/-- Orchestrator oracle: one brief returned, every product call succeeds. -/
def envOneBrief : GenEnv := ⟨some [briefA], fun _ => some prodAlpha, fun _ => none⟩

/-- Orchestrator oracle: no briefs; only the first sequential attempt succeeds. -/
def envSeqTwo : GenEnv :=
  ⟨some [], fun _ => none, fun i => if i = 0 then some prodAlpha else none⟩

/-- Orchestrator oracle: no briefs; the first sequential attempt yields a
product with an empty name. -/
def envSeqNoName : GenEnv :=
  ⟨some [], fun _ => none, fun i => if i = 0 then some prodNoName else none⟩

/-- Throw-aware oracle: no briefs; the first sequential attempt throws. -/
def envSeqThrow : GenEnvE :=
  ⟨some [], fun _ => POutcome.absent,
    fun i => if i = 0 then POutcome.throws else POutcome.absent⟩

/-- Throw-aware oracle: no briefs; no attempt throws and only the first
sequential attempt yields a product. -/
def envSeqOkE : GenEnvE :=
  ⟨some [], fun _ => POutcome.absent,
    fun i => if i = 0 then POutcome.ok prodAlpha else POutcome.absent⟩

/-- A populated image cache holding one file for category Birds. -/
def stBirds : ImgState := ⟨[("./generatedImages/Birds/RobinRed.png", "QUJDRA")], 0⟩

/-- The product whose sanitized name matches the cached file. -/
def prodRobin : Product := ⟨"Robin Red", "a garden bird figurine", none, []⟩

/-! ## Theorems -/

/-- C8: enrichAdditionalInformation is total (a Lean function), returns an
input with no URL-shaped substring unchanged, and returns the original input
whenever the fetches both throw or the text extraction throws — no error
escapes the function. -/
theorem enrichAdditionalInformation_safe (env : EnrichEnv) (s : String) :
    (extractFirstUrl s = none → enrichAdditionalInformation env s = s)
    ∧ ((∀ u, env.renderedHtml u = none) → (∀ u, env.plainHtml u = none) →
        enrichAdditionalInformation env s = s)
    ∧ ((∀ h, env.extractText h = none) → enrichAdditionalInformation env s = s) := by
  refine ⟨?_, ?_, ?_⟩
  · intro h
    simp [enrichAdditionalInformation, h]
  · intro h1 h2
    cases hu : extractFirstUrl s with
    | none => simp [enrichAdditionalInformation, hu]
    | some url => simp [enrichAdditionalInformation, hu, fetchedHtml, h1, h2]
  · intro h
    cases hu : extractFirstUrl s with
    | none => simp [enrichAdditionalInformation, hu]
    | some url =>
      cases hf : fetchedHtml env url with
      | none => simp [enrichAdditionalInformation, hu, hf]
      | some html => simp [enrichAdditionalInformation, hu, hf, h]

/-- Closed witness for C8: the all-throwing oracle leaves both a URL-free
input and an input with an unreachable URL unchanged. -/
theorem enrichAdditionalInformation_safe_witness :
    enrichAdditionalInformation envNoFetch "plain text without a link"
      = "plain text without a link"
    ∧ enrichAdditionalInformation envNoFetch "see https://unreachable.test/page"
      = "see https://unreachable.test/page" :=
  ⟨(enrichAdditionalInformation_safe envNoFetch "plain text without a link").1 rfl,
    (enrichAdditionalInformation_safe envNoFetch "see https://unreachable.test/page").2.1
      (fun _ => rfl) (fun _ => rfl)⟩

/-- C10: the enrichment result either equals the input or extends it strictly
on the right: every path either returns the input itself or appends the
non-empty crawled-content section to it. -/
theorem enrichAdditionalInformation_extends (env : EnrichEnv) (s : String) :
    enrichAdditionalInformation env s = s
    ∨ ∃ t, t ≠ "" ∧ enrichAdditionalInformation env s = s ++ t := by
  cases hu : extractFirstUrl s with
  | none => exact Or.inl (by simp [enrichAdditionalInformation, hu])
  | some url =>
    cases hf : fetchedHtml env url with
    | none => exact Or.inl (by simp [enrichAdditionalInformation, hu, hf])
    | some html =>
      cases ht : env.extractText html with
      | none => exact Or.inl (by simp [enrichAdditionalInformation, hu, hf, ht])
      | some text =>
        refine Or.inr ⟨"\n\nCrawled source URL: " ++ url
          ++ ("\nRelevant extracted content (summarize and prioritize as needed):\n"
            ++ clipText text 3000), ?_, ?_⟩
        · intro hcontr
          have h2 := congrArg String.length hcontr
          simp [String.length_append] at h2
          exact absurd h2.1.1 (by decide)
        · simp [enrichAdditionalInformation, hu, hf, ht, String.append_assoc]

/-- C3: on a model reply whose content cannot be parsed, generatePropertyGroups
evaluates to none — the implicit undefined return of the fall-through after
the catch — and not to the empty sequence the specification states. -/
theorem generatePropertyGroups_parse_failure_eval :
    generatePropertyGroups (fun _ => none) (some "this is not valid JSON") = none
    ∧ (none : Option Json) ≠ some (Json.arr []) :=
  ⟨rfl, fun h => Option.noConfusion h⟩

/-- The final products array of the fallback loop is the entry accumulator
followed by the products its attempts accept, in attempt order. -/
theorem fallbackLoop_fst (env : GenEnv) :
    ∀ (n start : Nat) (acc : List Product),
      (fallbackLoop env start n acc).1 = acc ++ seqAcceptedFrom env start n := by
  intro n
  induction n with
  | zero => intro start acc; simp [fallbackLoop, seqAcceptedFrom]
  | succ n ih =>
    intro start acc
    cases hr : env.seqResult start with
    | some p => simp [fallbackLoop, seqAcceptedFrom, hr, ih]
    | none => simp [fallbackLoop, seqAcceptedFrom, hr, ih]

/-- The fallback loop issues exactly one call per iteration. -/
theorem fallbackLoop_snd_length (env : GenEnv) :
    ∀ (n start : Nat) (acc : List Product),
      (fallbackLoop env start n acc).2.length = n := by
  intro n
  induction n with
  | zero => intro start acc; simp [fallbackLoop]
  | succ n ih =>
    intro start acc
    cases hr : env.seqResult start with
    | some p => simp [fallbackLoop, hr, ih]
    | none => simp [fallbackLoop, hr, ih]

/-- The j-th call of the fallback loop carries the truthy names of the entry
accumulator extended by the products accepted by the j attempts before it,
and no brief. -/
theorem fallbackLoop_snd_get (env : GenEnv) :
    ∀ (n j start : Nat) (acc : List Product), j < n →
      (fallbackLoop env start n acc).2.get? j =
        some ⟨truthyNames (acc ++ seqAcceptedFrom env start j), none⟩ := by
  intro n
  induction n with
  | zero => intro j start acc hj; exact absurd hj (Nat.not_lt_zero j)
  | succ n ih =>
    intro j start acc hj
    cases j with
    | zero => simp [fallbackLoop, seqAcceptedFrom]
    | succ j =>
      have hj' : j < n := Nat.lt_of_succ_lt_succ hj
      cases hr : env.seqResult start with
      | some p =>
        have h2 := ih j (start + 1) (acc ++ [p]) hj'
        simp [List.append_assoc] at h2
        simp [fallbackLoop, hr, seqAcceptedFrom, h2]
      | none =>
        have h2 := ih j (start + 1) acc hj'
        simp at h2
        simp [fallbackLoop, hr, seqAcceptedFrom, h2]

/-- Every call the fallback loop issues carries no brief. -/
theorem fallbackLoop_calls_no_brief (env : GenEnv) :
    ∀ (n start : Nat) (acc : List Product) (c : GenCall),
      c ∈ (fallbackLoop env start n acc).2 → c.brief = none := by
  intro n
  induction n with
  | zero => intro start acc c hc; simp [fallbackLoop] at hc
  | succ n ih =>
    intro start acc c hc
    cases hr : env.seqResult start with
    | some p =>
      simp [fallbackLoop, hr] at hc
      rcases hc with hc | hc
      · rw [hc]
      · exact ih (start + 1) (acc ++ [p]) c hc
    | none =>
      simp [fallbackLoop, hr] at hc
      rcases hc with hc | hc
      · rw [hc]
      · exact ih (start + 1) acc c hc

/-- Whenever the brief call throws or yields the empty array, generateProducts
reduces to the sequential fallback started on the empty accumulator. -/
theorem generateProducts_fallback_eq (env : GenEnv) (productCount : Nat)
    (h : env.briefs = none ∨ env.briefs = some []) :
    generateProducts env productCount =
      ((fallbackLoop env 0 productCount []).1.map some,
        (fallbackLoop env 0 productCount []).2) := by
  rcases h with h | h <;> simp [generateProducts, h]

/-- Under attempts that do not throw, the throw-aware fallback loop issues
exactly one call per iteration and succeeds with the accumulator extended by
the products its attempts accept. -/
theorem fallbackLoopE_no_throw (env : GenEnvE) :
    ∀ (n start : Nat) (acc : List Product),
      (∀ i, i < n → env.seqOutcome (start + i) ≠ POutcome.throws) →
      (fallbackLoopE env start n acc).1 = Except.ok (acc ++ seqAcceptedFromE env start n)
      ∧ (fallbackLoopE env start n acc).2.length = n := by
  intro n
  induction n with
  | zero =>
    intro start acc _
    exact ⟨by simp [fallbackLoopE, seqAcceptedFromE], by simp [fallbackLoopE]⟩
  | succ n ih =>
    intro start acc h
    have h0 : env.seqOutcome start ≠ POutcome.throws := by
      have := h 0 (Nat.succ_pos n)
      simpa using this
    have hshift : ∀ i, i < n → env.seqOutcome (start + 1 + i) ≠ POutcome.throws := by
      intro i hi
      have h1 := h (i + 1) (Nat.succ_lt_succ hi)
      have harith : start + (i + 1) = start + 1 + i := by omega
      rwa [harith] at h1
    cases ho : env.seqOutcome start with
    | throws => exact absurd ho h0
    | absent =>
      have h2 := ih (start + 1) acc hshift
      exact ⟨by simp [fallbackLoopE, seqAcceptedFromE, ho, h2.1],
        by simp [fallbackLoopE, ho, h2.2]⟩
    | ok p =>
      have h2 := ih (start + 1) (acc ++ [p]) hshift
      have h3 := h2.1
      simp [List.append_assoc] at h3
      exact ⟨by simp [fallbackLoopE, seqAcceptedFromE, ho, h3],
        by simp [fallbackLoopE, ho, h2.2]⟩

/-- Whenever the brief call throws or yields the empty array, the throw-aware
generateProducts reduces to the sequential fallback on the empty accumulator. -/
theorem generateProductsE_fallback_eq (env : GenEnvE) (productCount : Nat)
    (h : env.briefs = none ∨ env.briefs = some []) :
    generateProductsE env productCount =
      ((fallbackLoopE env 0 productCount []).1.map (List.map some),
        (fallbackLoopE env 0 productCount []).2) := by
  rcases h with h | h <;> simp [generateProductsE, h]

/-- C4 counterexample: the fallback path runs (zero briefs) with two products
requested, but the first sequential attempt's provider call throws — the call
on line 200 is outside the try of line 206 and the loop has no handler — so
only one attempt is made, not the claimed two, and the error propagates out
of generateProducts instead of a result. -/
theorem generateProductsE_fallback_abort_cex :
    (envSeqThrow.briefs = none ∨ envSeqThrow.briefs = some [])
    ∧ (generateProductsE envSeqThrow 2).2.length = 1
    ∧ (generateProductsE envSeqThrow 2).2.length ≠ 2
    ∧ (generateProductsE envSeqThrow 2).1 = Except.error () :=
  ⟨Or.inr rfl, rfl, by decide, rfl⟩

/-- C4 as amended: whenever the fallback path runs and none of its
product-generation calls throws, generateProducts performs exactly
productCount sequential attempts — never more, never fewer, and the loop is
structural recursion, hence terminating — appending to the result only the
attempts that return a product, so the result is exactly the accepted
products and its length the number of successful attempts. (A thrown attempt
instead aborts the loop early and its error propagates, as the
counterexample shows.) -/
theorem generateProductsE_fallback_attempts (env : GenEnvE) (productCount : Nat)
    (htrigger : env.briefs = none ∨ env.briefs = some [])
    (hnothrow : ∀ i, i < productCount → env.seqOutcome i ≠ POutcome.throws) :
    (generateProductsE env productCount).2.length = productCount
    ∧ (generateProductsE env productCount).1 =
        Except.ok ((seqAcceptedFromE env 0 productCount).map some) := by
  rw [generateProductsE_fallback_eq env productCount htrigger]
  have h0 : ∀ i, i < productCount → env.seqOutcome (0 + i) ≠ POutcome.throws := by
    intro i hi
    simpa using hnothrow i hi
  have h2 := fallbackLoopE_no_throw env productCount 0 [] h0
  refine ⟨h2.2, ?_⟩
  rw [h2.1]
  simp [Except.map]

/-- Closed witness for C4 as amended: with no briefs, no throwing attempt and
one of two sequential attempts succeeding, exactly two calls are issued and
exactly the one accepted product is returned. -/
theorem generateProductsE_fallback_attempts_witness :
    (envSeqOkE.briefs = none ∨ envSeqOkE.briefs = some [])
    ∧ (∀ i, i < 2 → envSeqOkE.seqOutcome i ≠ POutcome.throws)
    ∧ (generateProductsE envSeqOkE 2).2.length = 2
    ∧ (generateProductsE envSeqOkE 2).1 =
        Except.ok ((seqAcceptedFromE envSeqOkE 0 2).map some) :=
  ⟨Or.inr rfl, by decide,
    (generateProductsE_fallback_attempts envSeqOkE 2 (Or.inr rfl) (by decide)).1,
    (generateProductsE_fallback_attempts envSeqOkE 2 (Or.inr rfl) (by decide)).2⟩

/-- C5 counterexample: the first sequential attempt accepts a product whose
name is the empty string; the claim says the second attempt is then passed
the accepted-name list, which is the one-element list holding the empty
string, but the source filters the list through Boolean and passes the empty
list instead. -/
theorem generateProducts_seq_priorNames_cex :
    (generateProducts envSeqNoName 2).2.get? 1 = some ⟨[], none⟩
    ∧ (seqAcceptedFrom envSeqNoName 0 1).map Product.name = [""]
    ∧ ([] : List String) ≠ [""] :=
  ⟨rfl, rfl, by decide⟩

/-- C5 as amended: in the sequential fallback, the prior-names list of attempt
k (0-indexed) equals the names of the products accepted by attempts 0..k-1 in
acceptance order after dropping falsy (empty) names, exactly the source's
map-then-filter(Boolean) on line 110. -/
theorem generateProducts_seq_priorNames (env : GenEnv) (productCount k : Nat)
    (h : env.briefs = none ∨ env.briefs = some []) (hk : k < productCount) :
    (generateProducts env productCount).2.get? k =
      some ⟨truthyNames (seqAcceptedFrom env 0 k), none⟩ := by
  rw [generateProducts_fallback_eq env productCount h]
  have := fallbackLoop_snd_get env productCount k 0 [] hk
  simpa using this

/-- Closed witness for C5 as amended: the call of attempt 1 carries exactly
the truthy names accepted by attempt 0. -/
theorem generateProducts_seq_priorNames_witness :
    (envSeqTwo.briefs = none ∨ envSeqTwo.briefs = some []) ∧ (1 < 2)
    ∧ (generateProducts envSeqTwo 2).2.get? 1 =
        some ⟨truthyNames (seqAcceptedFrom envSeqTwo 0 1), none⟩ :=
  ⟨Or.inr rfl, by decide,
    generateProducts_seq_priorNames envSeqTwo 2 1 (Or.inr rfl) (by decide)⟩

/-- C1: evaluation at the failing input. One brief is returned and its
product-generation call yields an absent result; the fast path's Promise.all
keeps the absent entry, so the returned sequence is the one-element sequence
holding an absent entry — it is not dropped as the claim states. -/
theorem generateProducts_fast_keeps_absent :
    (generateProducts envFastAbsent 1).1 = [none]
    ∧ none ∈ (generateProducts envFastAbsent 1).1 :=
  ⟨rfl, by decide⟩

/-- C2 counterexample: the brief call yields one brief while two products are
requested; the fast path issues one product-generation call, not the
requested two — the fan-out is one call per returned brief. -/
theorem generateProducts_fast_call_count_cex :
    envOneBrief.briefs = some [briefA]
    ∧ (generateProducts envOneBrief 2).2.length = 1
    ∧ (generateProducts envOneBrief 2).2.length ≠ 2 :=
  ⟨rfl, rfl, by decide⟩

/-- With a non-empty brief array the orchestrator's call trace is one call
per brief, each carrying that brief and an empty prior-names list. -/
theorem generateProducts_fast_calls_eq (env : GenEnv) (bs : List ProductBrief)
    (productCount : Nat) (hb : env.briefs = some bs) (hne : bs ≠ []) :
    (generateProducts env productCount).2 = bs.map fun b => ⟨[], some b⟩ := by
  have hl : 0 < bs.length := List.length_pos.mpr hne
  have hl' : bs.length ≠ 0 := Nat.pos_iff_ne_zero.mp hl
  simp [generateProducts, hb, hl, hl']

/-- C2 as amended: whenever the brief call yields a non-empty array, the
orchestrator issues exactly one parallel product-generation call per returned
brief — which may be fewer or more than the requested count — the i-th call
seeded with the i-th brief and an empty prior-names list. -/
theorem generateProducts_fast_calls (env : GenEnv) (bs : List ProductBrief)
    (productCount : Nat) (hb : env.briefs = some bs) (hne : bs ≠ []) :
    (generateProducts env productCount).2 = bs.map (fun b => ⟨[], some b⟩)
    ∧ (generateProducts env productCount).2.length = bs.length := by
  have h2 := generateProducts_fast_calls_eq env bs productCount hb hne
  exact ⟨h2, by rw [h2]; exact List.length_map bs _⟩

/-- Closed witness for C2 as amended: one returned brief yields exactly the
one call carrying that brief and no prior names. -/
theorem generateProducts_fast_calls_witness :
    envOneBrief.briefs = some [briefA]
    ∧ ([briefA] : List ProductBrief) ≠ []
    ∧ (generateProducts envOneBrief 2).2 = [⟨[], some briefA⟩]
    ∧ (generateProducts envOneBrief 2).2.length = 1 :=
  ⟨rfl, by decide,
    (generateProducts_fast_calls envOneBrief [briefA] 2 rfl (by decide)).1,
    (generateProducts_fast_calls envOneBrief [briefA] 2 rfl (by decide)).2⟩

/-- C1's nearby true statement, shared support for the fast-path shape: with
a non-empty brief array the result sequence has one entry per brief, the i-th
entry being the i-th call's outcome, absent entries included — there is no
retry, backfill or filtering. -/
theorem generateProducts_fast_results (env : GenEnv) (bs : List ProductBrief)
    (productCount : Nat) (hb : env.briefs = some bs) (hne : bs ≠ []) :
    (generateProducts env productCount).1 = (List.range bs.length).map env.fastResult
    ∧ (generateProducts env productCount).1.length = bs.length := by
  have hl : 0 < bs.length := List.length_pos.mpr hne
  have hl' : bs.length ≠ 0 := Nat.pos_iff_ne_zero.mp hl
  constructor <;> simp [generateProducts, hb, hl, hl']

/-- Closed witness for the fast-path result shape at the C1 fixture. -/
theorem generateProducts_fast_results_witness :
    envFastAbsent.briefs = some [briefA]
    ∧ ([briefA] : List ProductBrief) ≠ []
    ∧ (generateProducts envFastAbsent 1).1 =
        (List.range ([briefA] : List ProductBrief).length).map envFastAbsent.fastResult
    ∧ (generateProducts envFastAbsent 1).1.length = ([briefA] : List ProductBrief).length :=
  ⟨rfl, by decide,
    (generateProducts_fast_results envFastAbsent [briefA] 1 rfl (by decide)).1,
    (generateProducts_fast_results envFastAbsent [briefA] 1 rfl (by decide)).2⟩

/-- Every call the orchestrator issues carries no brief or an empty
prior-names list. -/
theorem generateProducts_calls_shape (env : GenEnv) (productCount : Nat)
    (c : GenCall) (hc : c ∈ (generateProducts env productCount).2) :
    c.brief = none ∨ c.priorNames = [] := by
  cases hb : env.briefs with
  | none =>
    rw [generateProducts_fallback_eq env productCount (Or.inl hb)] at hc
    exact Or.inl (fallbackLoop_calls_no_brief env productCount 0 [] c hc)
  | some bs =>
    cases bs with
    | nil =>
      rw [generateProducts_fallback_eq env productCount (Or.inr hb)] at hc
      exact Or.inl (fallbackLoop_calls_no_brief env productCount 0 [] c hc)
    | cons b bs' =>
      have h2 := generateProducts_fast_calls_eq env (b :: bs') productCount hb
        (List.cons_ne_nil b bs')
      rw [h2] at hc
      rcases List.mem_map.mp hc with ⟨b', _, hb'⟩
      exact Or.inr (by rw [← hb'])

/-- C9: the two diversification inputs are never combined — every
product-generation call issued by generateProducts either carries a brief
together with an empty prior-names list, or a (possibly non-empty)
prior-names list together with no brief. -/
theorem generateProducts_not_combined (env : GenEnv) (productCount : Nat)
    (c : GenCall) (hc : c ∈ (generateProducts env productCount).2) :
    (c.brief ≠ none → c.priorNames = []) ∧ (c.priorNames ≠ [] → c.brief = none) := by
  rcases generateProducts_calls_shape env productCount c hc with h | h
  · exact ⟨fun hb => absurd h hb, fun _ => h⟩
  · exact ⟨fun _ => h, fun hp => absurd h hp⟩

/-- Closed witness for C9 at a fast-path call carrying a brief. -/
theorem generateProducts_not_combined_witness :
    (⟨[], some briefA⟩ : GenCall) ∈ (generateProducts envOneBrief 1).2
    ∧ ((⟨[], some briefA⟩ : GenCall).brief ≠ none →
        (⟨[], some briefA⟩ : GenCall).priorNames = [])
    ∧ ((⟨[], some briefA⟩ : GenCall).priorNames ≠ [] →
        (⟨[], some briefA⟩ : GenCall).brief = none) :=
  ⟨by decide,
    (generateProducts_not_combined envOneBrief 1 ⟨[], some briefA⟩ (by decide)).1,
    (generateProducts_not_combined envOneBrief 1 ⟨[], some briefA⟩ (by decide)).2⟩

/-- C6: on a cache hit, generateProductImage leaves the state — cache files
and provider-call count — untouched and attaches the base64 content of the
cached file; consequently a second invocation in sequence with the same name
and category again makes no provider call and attaches byte-identical data. -/
theorem generateProductImage_cache_hit (imageDir : String) (env : ImgEnv)
    (st : ImgState) (product : Product) (category : String) (d : String)
    (h : st.files.lookup (imageFsPath imageDir category product.name) = some d) :
    (generateProductImage imageDir env st product category).2 = st
    ∧ (generateProductImage imageDir env st product category).1.image =
        some ⟨sanitizeName product.name, ".png", d⟩
    ∧ (generateProductImage imageDir env
          (generateProductImage imageDir env st product category).2
          product category).1.image =
        (generateProductImage imageDir env st product category).1.image
    ∧ (generateProductImage imageDir env
          (generateProductImage imageDir env st product category).2
          product category).2.providerCalls = st.providerCalls := by
  have h1 : generateProductImage imageDir env st product category =
      ({ product with image := some ⟨sanitizeName product.name, ".png", d⟩ }, st) := by
    simp [generateProductImage, h]
  rw [h1]
  exact ⟨rfl, rfl, by rw [h1], by rw [h1]⟩

/-- Closed witness for C6 on a populated one-file cache. -/
theorem generateProductImage_cache_hit_witness :
    stBirds.files.lookup (imageFsPath "./generatedImages" "Birds" prodRobin.name)
      = some "QUJDRA"
    ∧ (generateProductImage "./generatedImages" ⟨some "WU9M"⟩ stBirds prodRobin "Birds").2
        = stBirds
    ∧ (generateProductImage "./generatedImages" ⟨some "WU9M"⟩ stBirds prodRobin "Birds").1.image
        = some ⟨sanitizeName prodRobin.name, ".png", "QUJDRA"⟩ :=
  ⟨rfl,
    (generateProductImage_cache_hit "./generatedImages" ⟨some "WU9M"⟩ stBirds prodRobin
      "Birds" "QUJDRA" rfl).1,
    (generateProductImage_cache_hit "./generatedImages" ⟨some "WU9M"⟩ stBirds prodRobin
      "Birds" "QUJDRA" rfl).2.1⟩

/-- C7: on a cache miss whose provider call throws or yields no payload (or an
empty payload), generateProductImage returns the product record completely
unchanged — no image field attached, every other field as given — and, being
a total function, propagates no error. -/
theorem generateProductImage_failure_unmodified (imageDir : String) (env : ImgEnv)
    (st : ImgState) (product : Product) (category : String)
    (hmiss : st.files.lookup (imageFsPath imageDir category product.name) = none)
    (hfail : env.providerImage = none ∨ env.providerImage = some "") :
    (generateProductImage imageDir env st product category).1 = product := by
  rcases hfail with hf | hf <;> simp [generateProductImage, hmiss, hf]

/-- Closed witness for C7 on an empty cache and a throwing provider. -/
theorem generateProductImage_failure_unmodified_witness :
    (⟨[], 0⟩ : ImgState).files.lookup (imageFsPath "./generatedImages" "Birds" prodRobin.name)
      = none
    ∧ ((⟨none⟩ : ImgEnv).providerImage = none ∨ (⟨none⟩ : ImgEnv).providerImage = some "")
    ∧ (generateProductImage "./generatedImages" ⟨none⟩ ⟨[], 0⟩ prodRobin "Birds").1
        = prodRobin :=
  ⟨rfl, Or.inl rfl,
    generateProductImage_failure_unmodified "./generatedImages" ⟨none⟩ ⟨[], 0⟩ prodRobin
      "Birds" rfl (Or.inl rfl)⟩

end ShopwareDataGen
